import Mathlib

/-!
# StreamHub video catalogue (`src/App.js`)

A shallow embedding of the React component `VideoPlatform`: the component
state, the handlers that change it (`saveVideos`, `handleUpload`,
`handleVideoUpload`, `handleThumbnailUpload`, `deleteVideo`, `toggleLike`) and
the derived view `filteredVideos`.

Modelling choices.
* JavaScript numbers (`id`, `likes`, `comments`, `views`) hold integers and are
  `Int`.  The only arithmetic of the component, `v.likes - 1` and `v.likes + 1`,
  is the arithmetic of binary64 numbers: the exact result rounded to 53
  significant bits (`roundToDouble`), which changes nothing below `2^53`.  From
  a finite number, adding or taking 1 never reaches infinity.
* JavaScript strings are Lean `String`s (sequences of code points).
* Every handler is a function from the state before the event to the state
  after it.  `alert`, `console.error` and the calls of `window.storage.set`
  are recorded in the state so that they can be talked about.
* What the browser decides is an argument: the built-ins `JSON.stringify`,
  `String.prototype.toLowerCase` and `FileReader.readAsDataURL` are the fields
  of `Host`; the clock (`Date.now()`, `toLocaleDateString`) and whether a
  `window.storage.set` call resolves are arguments of the handler concerned.
-/

namespace VideoPlatform

/-! ## Data model -/

/-- A browser `File` as the handlers use it: `name`, `type` and the content. -/
structure File where
  name : String
  type : String
  bytes : List Nat
deriving DecidableEq, Repr

/-- The value of `formData.thumbnail`: the string `''` of the empty form, or the
`File` put there by `handleThumbnailUpload`. -/
inductive Thumbnail where
  | str (s : String)
  | file (f : File)
deriving DecidableEq, Repr

/-- The upload form, `formData` (lines 9-16). -/
structure FormData where
  title : String
  description : String
  category : String
  thumbnail : Thumbnail
  duration : String
  videoFile : Option File
deriving DecidableEq, Repr

/-- A record of the collection, with the fields of `newVideo` (lines 70-84). -/
structure Video where
  id : Int
  title : String
  description : String
  category : String
  videoData : String
  thumbnailData : String
  videoFileName : String
  likes : Int
  comments : Int
  views : Int
  uploadDate : String
  userLiked : Bool
  duration : String
deriving DecidableEq, Repr

/-- The built-ins of the browser the component calls. -/
structure Host where
  /-- The text `JSON.stringify` gives for a collection. -/
  stringify : List Video → String
  /-- The built-in `String.prototype.toLowerCase`. -/
  toLowerCase : String → String
  /-- The data URL `FileReader.readAsDataURL` loads, `none` when the reader
  fires `onerror`. -/
  readAsDataURL : File → Option String

/-- The component state (lines 5-16) together with what the component has done
to the outside: the value under the key `'videos-db'`, the values handed to
`window.storage.set`, the `alert` messages and the `console.error` lines. -/
structure AppState where
  videos : List Video
  showUpload : Bool
  searchTerm : String
  selectedCategory : String
  formData : FormData
  db : Option String
  setCalls : List String
  alerts : List String
  errors : List String

/-- The form as `useState` creates it and as `handleUpload` resets it. -/
def emptyForm : FormData :=
  { title := "", description := "", category := "movie",
    thumbnail := Thumbnail.str "", duration := "", videoFile := none }

/-- The component right after mounting, before anything is loaded. -/
def initialState : AppState :=
  { videos := [], showUpload := false, searchTerm := "", selectedCategory := "all",
    formData := emptyForm, db := none, setCalls := [], alerts := [], errors := [] }

/-! ## String built-ins -/

/-- The code points `String.prototype.trim` strips: ECMAScript `WhiteSpace`
and `LineTerminator`. -/
def isTrimChar (c : Char) : Bool :=
  let n := c.toNat
  n == 0x09 || n == 0x0A || n == 0x0B || n == 0x0C || n == 0x0D || n == 0x20 ||
  n == 0xA0 || n == 0x1680 || (0x2000 ≤ n && n ≤ 0x200A) || n == 0x2028 ||
  n == 0x2029 || n == 0x202F || n == 0x205F || n == 0x3000 || n == 0xFEFF

/-- The built-in `String.prototype.trim`. -/
def trim (s : String) : String :=
  String.mk ((s.data.dropWhile isTrimChar).reverse.dropWhile isTrimChar).reverse

/-- The test `!str` on a string: true exactly for the empty string. -/
def falsy (s : String) : Bool := s == ""

/-- Whether `t` occurs in `s` starting at some position of `s`. -/
def includesChars : List Char → List Char → Bool
  | [], t => t.isPrefixOf []
  | c :: cs, t => t.isPrefixOf (c :: cs) || includesChars cs t

/-- The built-in `String.prototype.includes`. -/
def includes (s t : String) : Bool := includesChars s.data t.data

/-! ## Numbers -/

/-- How many times a magnitude has to be halved to come below `2^53`, which is
the binary exponent of the last significant bit of a binary64 number of that
magnitude.  `fuel` bounds the halvings; the magnitude itself is enough. -/
def excessBits : Nat → Nat → Nat
  | 0, _ => 0
  | fuel + 1, a => if a < 2 ^ 53 then 0 else excessBits fuel (a / 2) + 1

/-- An integer as an IEEE-754 binary64 number, the JavaScript number: itself
when its magnitude is below `2^53`, else rounded to 53 significant bits, to the
nearest and, on a tie, to the even significand. -/
def roundToDouble (n : Int) : Int :=
  let a := n.natAbs
  if a < 2 ^ 53 then n
  else
    let e := excessBits a a
    let q := a / 2 ^ e
    let r := a % 2 ^ e
    let q1 :=
      if 2 * r < 2 ^ e then q
      else if 2 ^ e < 2 * r then q + 1
      else if q % 2 = 0 then q else q + 1
    Int.sign n * ((q1 * 2 ^ e : Nat) : Int)

/-- The JavaScript `x + y` on numbers that hold integers. -/
def numAdd (x y : Int) : Int := roundToDouble (x + y)

/-- The JavaScript `x - y` on numbers that hold integers. -/
def numSub (x y : Int) : Int := roundToDouble (x - y)

/-- The range of `Number.isSafeInteger`: magnitude at most `2^53 - 1`. -/
def IsSafeInteger (n : Int) : Prop := n.natAbs < 2 ^ 53

instance (n : Int) : Decidable (IsSafeInteger n) := by
  unfold IsSafeInteger
  exact inferInstance

/-! ## Handlers -/

/-- The effect of `alert(msg)`. -/
def alert (s : AppState) (msg : String) : AppState :=
  { s with alerts := s.alerts ++ [msg] }

/-- `saveVideos` (lines 42-49).  `writeOk` says whether the awaited
`window.storage.set` resolves; when it rejects, control goes to the `catch`
and `setVideos` is not reached. -/
def saveVideos (h : Host) (s : AppState) (updatedVideos : List Video) (writeOk : Bool) :
    AppState :=
  let s1 := { s with setCalls := s.setCalls ++ [h.stringify updatedVideos] }
  if writeOk then
    { s1 with db := some (h.stringify updatedVideos), videos := updatedVideos }
  else
    { s1 with errors := s1.errors ++ ["Chyba pri ukladaní:"] }

/-- `fileToBase64` (lines 100-107): the promise resolves with the reader result
or rejects. -/
def fileToBase64 (h : Host) (file : File) : Option String := h.readAsDataURL file

/-- Lines 64-68: `thumbnailBase64` stays `''` unless `formData.thumbnail` is
truthy and not a string, that is, a `File`; `none` when the encoding rejects. -/
def handleUpload_thumbnailBase64 (h : Host) (t : Thumbnail) : Option String :=
  match t with
  | Thumbnail.str _ => some ""
  | Thumbnail.file f => fileToBase64 h f

/-- The record built at lines 70-84. -/
def handleUpload_newVideo (fd : FormData) (videoFile : File)
    (videoBase64 thumbnailBase64 : String) (now : Int) (today : String) : Video :=
  { id := now,
    title := fd.title,
    description := fd.description,
    category := fd.category,
    videoData := videoBase64,
    thumbnailData := thumbnailBase64,
    videoFileName := videoFile.name,
    likes := 0,
    comments := 0,
    views := 0,
    uploadDate := today,
    userLiked := false,
    duration := fd.duration }

/-- `handleUpload` (lines 51-98).  `now` is `Date.now()`, `today` the text of
`new Date().toLocaleDateString('sk-SK')`.  A rejected `fileToBase64` ends the
handler where it is awaited. -/
def handleUpload (h : Host) (s : AppState) (now : Int) (today : String) (writeOk : Bool) :
    AppState :=
  if falsy (trim s.formData.title) || falsy (trim s.formData.description) then
    alert s "Prosím vyplň názov a popis!"
  else
    match s.formData.videoFile with
    | none => alert s "Prosím vyber video súbor!"
    | some videoFile =>
      match fileToBase64 h videoFile with
      | none => s
      | some videoBase64 =>
        match handleUpload_thumbnailBase64 h s.formData.thumbnail with
        | none => s
        | some thumbnailBase64 =>
          let newVideo :=
            handleUpload_newVideo s.formData videoFile videoBase64 thumbnailBase64 now today
          let updatedVideos := s.videos ++ [newVideo]
          let s1 := saveVideos h s updatedVideos writeOk
          { s1 with formData := emptyForm, showUpload := false }

/-- `handleVideoUpload` (lines 109-116); `file` is `e.target.files[0]`. -/
def handleVideoUpload (s : AppState) (file : Option File) : AppState :=
  match file with
  | some f =>
    if f.type == "video/mp4" then
      { s with formData := { s.formData with videoFile := some f } }
    else
      alert s "Prosím vyber len MP4 video!"
  | none => alert s "Prosím vyber len MP4 video!"

/-- `handleThumbnailUpload` (lines 118-125); `file` is `e.target.files[0]`. -/
def handleThumbnailUpload (s : AppState) (file : Option File) : AppState :=
  match file with
  | some f =>
    if f.type == "image/png" || f.type == "image/jpeg" then
      { s with formData := { s.formData with thumbnail := Thumbnail.file f } }
    else
      alert s "Prosím vyber len PNG alebo JPG obrázok!"
  | none => alert s "Prosím vyber len PNG alebo JPG obrázok!"

/-- The `updatedVideos` of `deleteVideo` (line 128). -/
def deleteVideo_updatedVideos (videos : List Video) (id : Int) : List Video :=
  videos.filter (fun v => v.id != id)

/-- `deleteVideo` (lines 127-130). -/
def deleteVideo (h : Host) (s : AppState) (id : Int) (writeOk : Bool) : AppState :=
  saveVideos h s (deleteVideo_updatedVideos s.videos id) writeOk

/-- The `updatedVideos` of `toggleLike` (lines 133-142). -/
def toggleLike_updatedVideos (videos : List Video) (id : Int) : List Video :=
  videos.map (fun v =>
    if v.id == id then
      { v with
        userLiked := !v.userLiked,
        likes := if v.userLiked then numSub v.likes 1 else numAdd v.likes 1 }
    else v)

/-- `toggleLike` (lines 132-144). -/
def toggleLike (h : Host) (s : AppState) (id : Int) (writeOk : Bool) : AppState :=
  saveVideos h s (toggleLike_updatedVideos s.videos id) writeOk

/-- `filteredVideos` (lines 146-151). -/
def filteredVideos (h : Host) (s : AppState) : List Video :=
  s.videos.filter (fun video =>
    let matchesSearch :=
      includes (h.toLowerCase video.title) (h.toLowerCase s.searchTerm) ||
      includes (h.toLowerCase video.description) (h.toLowerCase s.searchTerm)
    let matchesCategory := s.selectedCategory == "all" || video.category == s.selectedCategory
    matchesSearch && matchesCategory)


/-! ## Invariants -/

/-- The like counter of a record is in step with its flag: it is not negative,
and it is at least 1 while the record is liked. -/
def LikesOk (v : Video) : Prop := 0 ≤ v.likes ∧ (v.userLiked = true → 1 ≤ v.likes)

instance (v : Video) : Decidable (LikesOk v) := by
  unfold LikesOk
  exact inferInstance

/-- The ids of the records, in collection order. -/
def ids (videos : List Video) : List Int := videos.map (fun v => v.id)

/-- Record ids are pairwise distinct. -/
def UniqueIds (videos : List Video) : Prop := (ids videos).Nodup

instance (videos : List Video) : Decidable (UniqueIds videos) := by
  unfold UniqueIds
  exact inferInstance

/-! ## The filter in the words of the specification -/

/-- The record passes the filter as the specification words it: the lower-cased
search term is a contiguous part of the lower-cased title or of the lower-cased
description, and the selected category is `all` or the category of the record. -/
def MatchesFilter (h : Host) (searchTerm category : String) (v : Video) : Prop :=
  ((h.toLowerCase searchTerm).data <:+: (h.toLowerCase v.title).data ∨
    (h.toLowerCase searchTerm).data <:+: (h.toLowerCase v.description).data) ∧
  (category = "all" ∨ v.category = category)

instance (h : Host) (searchTerm category : String) (v : Video) :
    Decidable (MatchesFilter h searchTerm category v) := by
  unfold MatchesFilter
  exact inferInstance

/-- What is taken for granted of the host's `toLowerCase`: on a string of ASCII
characters it turns `A`-`Z` into `a`-`z` and keeps every other character. -/
def LowersAscii (h : Host) : Prop :=
  ∀ s : String, (∀ c ∈ s.data, c.toNat < 128) →
    h.toLowerCase s = String.mk (s.data.map Char.toLower)

/-! ## Lemmas on numbers -/

theorem excessBits_of_lt (fuel a : Nat) (ha : a < 2 ^ 53) : excessBits fuel a = 0 := by
  cases fuel with
  | zero => rfl
  | succ f => rw [excessBits, if_pos ha]

theorem excessBits_bounds (fuel : Nat) : ∀ a : Nat, a ≤ fuel → 2 ^ 53 ≤ a →
    2 ^ 52 * 2 ^ excessBits fuel a ≤ a ∧ a < 2 ^ 53 * 2 ^ excessBits fuel a := by
  induction fuel with
  | zero =>
    intro a hf ha
    omega
  | succ f ih =>
    intro a hf ha
    rw [excessBits, if_neg (not_lt.mpr ha)]
    by_cases h2 : a / 2 < 2 ^ 53
    · rw [excessBits_of_lt f (a / 2) h2]
      constructor <;> omega
    · have hb := ih (a / 2) (by omega) (not_lt.mp h2)
      rw [pow_succ 2 (excessBits f (a / 2))]
      generalize 2 ^ excessBits f (a / 2) = p at hb ⊢
      constructor <;> omega

theorem roundToDouble_of_safe (n : Int) (hn : IsSafeInteger n) : roundToDouble n = n := by
  unfold roundToDouble
  exact if_pos hn

theorem roundToDouble_of_natAbs_le (n : Int) (hn : n.natAbs ≤ 2 ^ 53) : roundToDouble n = n := by
  by_cases hlt : n.natAbs < 2 ^ 53
  · exact roundToDouble_of_safe n hlt
  · have he : n.natAbs = 2 ^ 53 := by omega
    rcases Int.natAbs_eq n with h | h
    · rw [he] at h
      rw [h]
      decide
    · rw [he] at h
      rw [h]
      decide

theorem roundToDouble_pos (n : Int) (hn : 1 ≤ n) : 1 ≤ roundToDouble n := by
  unfold roundToDouble
  by_cases hlt : n.natAbs < 2 ^ 53
  · simp only [hlt, if_true]
    exact hn
  · simp only [hlt, if_false]
    have hb := excessBits_bounds n.natAbs n.natAbs le_rfl (not_lt.mp hlt)
    have hs : Int.sign n = 1 := Int.sign_eq_one_of_pos (by omega)
    rw [hs, one_mul]
    have hp : 0 < 2 ^ excessBits n.natAbs n.natAbs := Nat.two_pow_pos _
    have hq : 2 ^ 52 ≤ n.natAbs / 2 ^ excessBits n.natAbs n.natAbs :=
      (Nat.le_div_iff_mul_le hp).mpr hb.1
    generalize n.natAbs / 2 ^ excessBits n.natAbs n.natAbs = q at hq ⊢
    generalize n.natAbs % 2 ^ excessBits n.natAbs n.natAbs = r
    generalize 2 ^ excessBits n.natAbs n.natAbs = p at hp ⊢
    have h1 : 1 ≤ (if 2 * r < p then q else if p < 2 * r then q + 1
        else if q % 2 = 0 then q else q + 1) := by
      split_ifs <;> omega
    exact_mod_cast Nat.mul_pos h1 hp

theorem roundToDouble_nonneg (n : Int) (hn : 0 ≤ n) : 0 ≤ roundToDouble n := by
  by_cases h : n = 0
  · rw [h]
    decide
  · have := roundToDouble_pos n (by omega)
    omega

theorem numAdd_one_of_safe (n : Int) (hn : IsSafeInteger n) : numAdd n 1 = n + 1 := by
  unfold IsSafeInteger at hn
  exact roundToDouble_of_natAbs_le (n + 1) (by omega)

theorem numSub_one_of_safe (n : Int) (hn : IsSafeInteger n) : numSub n 1 = n - 1 := by
  unfold IsSafeInteger at hn
  exact roundToDouble_of_natAbs_le (n - 1) (by omega)

/-! ## Lemmas on the collection transforms -/

theorem saveVideos_videos_ok (h : Host) (s : AppState) (u : List Video) :
    (saveVideos h s u true).videos = u := rfl

theorem saveVideos_db_ok (h : Host) (s : AppState) (u : List Video) :
    (saveVideos h s u true).db = some (h.stringify u) := rfl

theorem saveVideos_videos_fail (h : Host) (s : AppState) (u : List Video) :
    (saveVideos h s u false).videos = s.videos := rfl

theorem saveVideos_videos_mem (h : Host) (s : AppState) (u : List Video) (writeOk : Bool) :
    (saveVideos h s u writeOk).videos = u ∨ (saveVideos h s u writeOk).videos = s.videos := by
  cases writeOk
  · exact Or.inr rfl
  · exact Or.inl rfl

/-- One record whose like counter is a safe integer is, after two like-toggles,
the record before them. -/
theorem toggle_twice_record (v : Video) (id : Int) (hsafe : v.id = id → IsSafeInteger v.likes) :
    (fun w : Video =>
        if w.id == id then
          { w with
            userLiked := !w.userLiked,
            likes := if w.userLiked then numSub w.likes 1 else numAdd w.likes 1 }
        else w)
      (if v.id == id then
          { v with
            userLiked := !v.userLiked,
            likes := if v.userLiked then numSub v.likes 1 else numAdd v.likes 1 }
        else v) = v := by
  by_cases hid : v.id = id
  · have hs := hsafe hid
    cases v with
    | mk vid title description category videoData thumbnailData videoFileName likes
        comments views uploadDate userLiked duration =>
      have hadd : numSub (numAdd likes 1) 1 = likes := by
        rw [numAdd_one_of_safe likes hs]
        unfold numSub
        rw [add_sub_cancel_right]
        exact roundToDouble_of_safe likes hs
      have hsub : numAdd (numSub likes 1) 1 = likes := by
        rw [numSub_one_of_safe likes hs]
        unfold numAdd
        rw [sub_add_cancel]
        exact roundToDouble_of_safe likes hs
      cases userLiked <;> simp_all
  · simp [hid]

theorem toggleLike_updatedVideos_twice (videos : List Video) (id : Int)
    (hsafe : ∀ v ∈ videos, v.id = id → IsSafeInteger v.likes) :
    toggleLike_updatedVideos (toggleLike_updatedVideos videos id) id = videos := by
  unfold toggleLike_updatedVideos
  rw [List.map_map]
  conv_rhs => rw [← List.map_id videos]
  apply List.map_congr_left
  intro v hv
  exact toggle_twice_record v id (hsafe v hv)

theorem toggleLike_updatedVideos_length (videos : List Video) (id : Int) :
    (toggleLike_updatedVideos videos id).length = videos.length := by
  simp [toggleLike_updatedVideos]

theorem toggleLike_updatedVideos_ids (videos : List Video) (id : Int) :
    (toggleLike_updatedVideos videos id).map (fun v => v.id) = videos.map (fun v => v.id) := by
  unfold toggleLike_updatedVideos
  rw [List.map_map]
  apply List.map_congr_left
  intro v _
  by_cases hid : v.id = id <;> simp [hid]

theorem toggleLike_updatedVideos_absent (videos : List Video) (id : Int)
    (hno : ∀ v ∈ videos, v.id ≠ id) : toggleLike_updatedVideos videos id = videos := by
  unfold toggleLike_updatedVideos
  conv_rhs => rw [← List.map_id videos]
  apply List.map_congr_left
  intro v hv
  simp [hno v hv]

theorem deleteVideo_updatedVideos_absent (videos : List Video) (id : Int)
    (hno : ∀ v ∈ videos, v.id ≠ id) : deleteVideo_updatedVideos videos id = videos := by
  unfold deleteVideo_updatedVideos
  rw [List.filter_eq_self]
  intro v hv
  simp [hno v hv]

/-- An `alert` shown before `handleUpload` changes nothing of what the upload
stores: the collection, the persisted value and the storage calls are those of
the upload without it. -/
theorem handleUpload_after_alert (h : Host) (s : AppState) (msg : String) (now : Int)
    (today : String) (writeOk : Bool) :
    (handleUpload h (alert s msg) now today writeOk).videos =
      (handleUpload h s now today writeOk).videos ∧
    (handleUpload h (alert s msg) now today writeOk).db =
      (handleUpload h s now today writeOk).db ∧
    (handleUpload h (alert s msg) now today writeOk).setCalls =
      (handleUpload h s now today writeOk).setCalls := by
  have hfd : (alert s msg).formData = s.formData := rfl
  have hvs : (alert s msg).videos = s.videos := rfl
  unfold handleUpload
  rw [hfd, hvs]
  by_cases hf : (falsy (trim s.formData.title) || falsy (trim s.formData.description)) = true
  · simp only [if_pos hf]
    exact ⟨rfl, rfl, rfl⟩
  · simp only [if_neg hf]
    cases s.formData.videoFile with
    | none => exact ⟨rfl, rfl, rfl⟩
    | some videoFile =>
      simp only []
      cases fileToBase64 h videoFile with
      | none => exact ⟨rfl, rfl, rfl⟩
      | some videoBase64 =>
        simp only []
        cases handleUpload_thumbnailBase64 h s.formData.thumbnail with
        | none => exact ⟨rfl, rfl, rfl⟩
        | some thumbnailBase64 =>
          cases writeOk <;> exact ⟨rfl, rfl, rfl⟩

/-! ## Claims -/

/-- C1, as the claim has it, fails: a record that is not liked and has
`likes = 2^53` keeps `2^53` at the first `toggleLike`, since `2^53 + 1` is not a
binary64 number and rounds back, and has `2^53 - 1` after the second. -/
theorem toggleLike_twice_not_restoring :
    ((toggleLike
        { stringify := fun _ => "[]", toLowerCase := fun x => x, readAsDataURL := fun _ => none }
        (toggleLike
          { stringify := fun _ => "[]", toLowerCase := fun x => x, readAsDataURL := fun _ => none }
          { initialState with videos :=
            [ { id := 1, title := "a", description := "x", category := "movie",
                videoData := "d", thumbnailData := "", videoFileName := "a.mp4",
                likes := 9007199254740992, comments := 0, views := 0,
                uploadDate := "1. 1. 2024", userLiked := false, duration := "" } ] }
          1 true)
        1 true).videos.map (fun v => v.likes) = [9007199254740991]) ∧
    (toggleLike
        { stringify := fun _ => "[]", toLowerCase := fun x => x, readAsDataURL := fun _ => none }
        (toggleLike
          { stringify := fun _ => "[]", toLowerCase := fun x => x, readAsDataURL := fun _ => none }
          { initialState with videos :=
            [ { id := 1, title := "a", description := "x", category := "movie",
                videoData := "d", thumbnailData := "", videoFileName := "a.mp4",
                likes := 9007199254740992, comments := 0, views := 0,
                uploadDate := "1. 1. 2024", userLiked := false, duration := "" } ] }
          1 true)
        1 true).videos ≠
      [ { id := 1, title := "a", description := "x", category := "movie",
          videoData := "d", thumbnailData := "", videoFileName := "a.mp4",
          likes := 9007199254740992, comments := 0, views := 0,
          uploadDate := "1. 1. 2024", userLiked := false, duration := "" } ] := by
  decide

/-- C1, amended: for every collection in which the records with the given id
have a safe integer as `likes` (magnitude below `2^53`), two successive calls of
`toggleLike(id)`, each write resolving and the second call working on the
collection the first one left, give back the original collection: same records,
same order, every field as before (so `likes` and `userLiked` too).  The
persisted value is then the serialisation of the original collection. -/
theorem toggleLike_twice_restores (h : Host) (s : AppState) (id : Int)
    (hsafe : ∀ v ∈ s.videos, v.id = id → IsSafeInteger v.likes) :
    (toggleLike h (toggleLike h s id true) id true).videos = s.videos ∧
    (toggleLike h (toggleLike h s id true) id true).db = some (h.stringify s.videos) := by
  have key : toggleLike_updatedVideos (toggleLike h s id true).videos id = s.videos := by
    rw [toggleLike, saveVideos_videos_ok]
    exact toggleLike_updatedVideos_twice s.videos id hsafe
  constructor
  · rw [toggleLike, saveVideos_videos_ok]
    exact key
  · rw [toggleLike, saveVideos_db_ok, key]

/-- C1 amended, at a concrete collection: the second of two records, liked with
three likes, toggled twice. -/
theorem toggleLike_twice_restores_witness :
    (toggleLike
        { stringify := fun _ => "[]", toLowerCase := fun x => x, readAsDataURL := fun _ => none }
        (toggleLike
          { stringify := fun _ => "[]", toLowerCase := fun x => x, readAsDataURL := fun _ => none }
          { initialState with videos :=
            [ { id := 1, title := "a", description := "x", category := "movie",
                videoData := "d", thumbnailData := "", videoFileName := "a.mp4", likes := 0,
                comments := 0, views := 0, uploadDate := "1. 1. 2024", userLiked := false,
                duration := "5" },
              { id := 2, title := "b", description := "y", category := "gaming",
                videoData := "e", thumbnailData := "", videoFileName := "b.mp4", likes := 3,
                comments := 0, views := 0, uploadDate := "2. 1. 2024", userLiked := true,
                duration := "" } ] }
          2 true)
        2 true).videos =
      [ { id := 1, title := "a", description := "x", category := "movie",
          videoData := "d", thumbnailData := "", videoFileName := "a.mp4", likes := 0,
          comments := 0, views := 0, uploadDate := "1. 1. 2024", userLiked := false,
          duration := "5" },
        { id := 2, title := "b", description := "y", category := "gaming",
          videoData := "e", thumbnailData := "", videoFileName := "b.mp4", likes := 3,
          comments := 0, views := 0, uploadDate := "2. 1. 2024", userLiked := true,
          duration := "" } ] :=
  (toggleLike_twice_restores
    { stringify := fun _ => "[]", toLowerCase := fun x => x, readAsDataURL := fun _ => none }
    { initialState with videos :=
      [ { id := 1, title := "a", description := "x", category := "movie",
          videoData := "d", thumbnailData := "", videoFileName := "a.mp4", likes := 0,
          comments := 0, views := 0, uploadDate := "1. 1. 2024", userLiked := false,
          duration := "5" },
        { id := 2, title := "b", description := "y", category := "gaming",
          videoData := "e", thumbnailData := "", videoFileName := "b.mp4", likes := 3,
          comments := 0, views := 0, uploadDate := "2. 1. 2024", userLiked := true,
          duration := "" } ] }
    2 (by decide)).1

/-- C6, as the claim has it, fails: a record that is not liked and has
`likes = 2^53` is toggled to `likes = 2^53`, not to `2^53 + 1`: the counter does
not move, `2^53 + 1` being no binary64 number. -/
theorem toggleLike_likes_not_moved :
    (toggleLike_updatedVideos
        [ { id := 1, title := "a", description := "x", category := "movie",
            videoData := "d", thumbnailData := "", videoFileName := "a.mp4",
            likes := 9007199254740992, comments := 0, views := 0,
            uploadDate := "1. 1. 2024", userLiked := false, duration := "" } ]
        1).map (fun v => (v.userLiked, v.likes)) = [(true, 9007199254740992)] ∧
    (toggleLike_updatedVideos
        [ { id := 1, title := "a", description := "x", category := "movie",
            videoData := "d", thumbnailData := "", videoFileName := "a.mp4",
            likes := 9007199254740992, comments := 0, views := 0,
            uploadDate := "1. 1. 2024", userLiked := false, duration := "" } ]
        1).map (fun v => v.likes) ≠ [9007199254740992 + 1] := by
  decide

/-- C6, amended: `toggleLike(id)` keeps length and order; at every position a
record whose id differs from `id` is unchanged, and a record whose id equals
`id` has `userLiked` negated, every other field but `likes` as before, and
`likes` one lower if it was liked and one higher if it was not whenever `likes`
was a safe integer (magnitude below `2^53`); in general `likes` is that
difference or sum rounded to a binary64 number.  When no record has that id the
result is the input collection.  The collection meant is the one the handler
computes and, the write resolving, installs. -/
theorem toggleLike_frame (h : Host) (s : AppState) (id : Int) :
    (toggleLike h s id true).videos = toggleLike_updatedVideos s.videos id ∧
    (toggleLike_updatedVideos s.videos id).length = s.videos.length ∧
    (∀ (i : Nat) (v : Video), s.videos[i]? = some v →
      ∃ w, (toggleLike_updatedVideos s.videos id)[i]? = some w ∧
        (v.id ≠ id → w = v) ∧
        (v.id = id →
          w.userLiked = (!v.userLiked) ∧
          (IsSafeInteger v.likes → v.userLiked = true → w.likes = v.likes - 1) ∧
          (IsSafeInteger v.likes → v.userLiked = false → w.likes = v.likes + 1) ∧
          (v.userLiked = true → w.likes = roundToDouble (v.likes - 1)) ∧
          (v.userLiked = false → w.likes = roundToDouble (v.likes + 1)) ∧
          w.id = v.id ∧ w.title = v.title ∧ w.description = v.description ∧
          w.category = v.category ∧ w.videoData = v.videoData ∧
          w.thumbnailData = v.thumbnailData ∧ w.videoFileName = v.videoFileName ∧
          w.comments = v.comments ∧ w.views = v.views ∧
          w.uploadDate = v.uploadDate ∧ w.duration = v.duration)) ∧
    ((∀ v ∈ s.videos, v.id ≠ id) → toggleLike_updatedVideos s.videos id = s.videos) := by
  refine ⟨rfl, toggleLike_updatedVideos_length s.videos id, ?_,
    toggleLike_updatedVideos_absent s.videos id⟩
  intro i v hv
  by_cases hid : v.id = id
  · refine ⟨{ v with
        userLiked := !v.userLiked,
        likes := if v.userLiked then numSub v.likes 1 else numAdd v.likes 1 }, ?_, ?_, ?_⟩
    · simp [toggleLike_updatedVideos, hv, hid]
    · intro hne
      exact absurd hid hne
    · intro _
      refine ⟨rfl, ?_, ?_, ?_, ?_, rfl, rfl, rfl, rfl, rfl, rfl, rfl, rfl, rfl, rfl, rfl⟩
      · intro hs hl
        simp only [hl, if_true]
        exact numSub_one_of_safe v.likes hs
      · intro hs hl
        simp only [hl, Bool.false_eq_true, if_false]
        exact numAdd_one_of_safe v.likes hs
      · intro hl
        simp only [hl, if_true]
        rfl
      · intro hl
        simp only [hl, Bool.false_eq_true, if_false]
        rfl
  · refine ⟨v, ?_, fun _ => rfl, fun he => absurd he hid⟩
    simp [toggleLike_updatedVideos, hv, hid]

/-- C6 amended, at a concrete collection: toggling id 2, the second of two
records, not liked and without likes, gives it one like and the flag. -/
theorem toggleLike_frame_witness :
    ∃ w : Video,
      (toggleLike_updatedVideos
        [ { id := 1, title := "a", description := "x", category := "movie", videoData := "d",
            thumbnailData := "", videoFileName := "a.mp4", likes := 3, comments := 0,
            views := 0, uploadDate := "1. 1. 2024", userLiked := true, duration := "5" },
          { id := 2, title := "b", description := "y", category := "gaming", videoData := "e",
            thumbnailData := "", videoFileName := "b.mp4", likes := 0, comments := 0,
            views := 0, uploadDate := "2. 1. 2024", userLiked := false, duration := "" } ]
        2)[1]? = some w ∧
      w.userLiked = true ∧ w.likes = 1 ∧ w.id = 2 ∧ w.title = "b" :=
  match (toggleLike_frame
      { stringify := fun _ => "[]", toLowerCase := fun x => x, readAsDataURL := fun _ => none }
      { initialState with videos :=
        [ { id := 1, title := "a", description := "x", category := "movie", videoData := "d",
            thumbnailData := "", videoFileName := "a.mp4", likes := 3, comments := 0,
            views := 0, uploadDate := "1. 1. 2024", userLiked := true, duration := "5" },
          { id := 2, title := "b", description := "y", category := "gaming", videoData := "e",
            thumbnailData := "", videoFileName := "b.mp4", likes := 0, comments := 0,
            views := 0, uploadDate := "2. 1. 2024", userLiked := false, duration := "" } ] }
      2).2.2.1 1
      { id := 2, title := "b", description := "y", category := "gaming", videoData := "e",
        thumbnailData := "", videoFileName := "b.mp4", likes := 0, comments := 0,
        views := 0, uploadDate := "2. 1. 2024", userLiked := false, duration := "" }
      rfl with
  | ⟨w, hw, _, hsame⟩ =>
    ⟨w, hw, (hsame rfl).1, (hsame rfl).2.2.1 (by decide) rfl, (hsame rfl).2.2.2.2.2.1,
      (hsame rfl).2.2.2.2.2.2.1⟩

/-- C3: `deleteVideo(id)` gives the input collection without the records whose
id equals `id`: the result is a sub-list of the input in the input order, it
holds no record with that id, and every other record occurs in it as often as
in the input; when no record has that id the result is the input collection.
The collection meant is the one the handler computes and, the write resolving,
installs. -/
theorem deleteVideo_removes (h : Host) (s : AppState) (id : Int) :
    (deleteVideo h s id true).videos = deleteVideo_updatedVideos s.videos id ∧
    (deleteVideo_updatedVideos s.videos id).Sublist s.videos ∧
    (∀ v ∈ deleteVideo_updatedVideos s.videos id, v.id ≠ id) ∧
    (∀ v : Video, v.id ≠ id →
      (deleteVideo_updatedVideos s.videos id).count v = s.videos.count v) ∧
    ((∀ v ∈ s.videos, v.id ≠ id) → deleteVideo_updatedVideos s.videos id = s.videos) := by
  refine ⟨rfl, List.filter_sublist _, ?_, ?_, deleteVideo_updatedVideos_absent s.videos id⟩
  · intro v hv
    unfold deleteVideo_updatedVideos at hv
    simpa using (List.mem_filter.mp hv).2
  · intro v hv
    unfold deleteVideo_updatedVideos
    rw [List.count_filter]
    simpa using hv


/-- C4: when the title is empty after trimming, or the description is empty
after trimming, or no video file is in the form, `handleUpload` reports the
failure with one `alert`, calls `window.storage.set` not at all, and leaves the
collection, the persisted value and the form as they were. -/
theorem handleUpload_rejects_invalid (h : Host) (s : AppState) (now : Int) (today : String)
    (writeOk : Bool)
    (hbad : trim s.formData.title = "" ∨ trim s.formData.description = "" ∨
      s.formData.videoFile = none) :
    (handleUpload h s now today writeOk).videos = s.videos ∧
    (handleUpload h s now today writeOk).db = s.db ∧
    (handleUpload h s now today writeOk).setCalls = s.setCalls ∧
    (∃ msg, (handleUpload h s now today writeOk).alerts = s.alerts ++ [msg]) ∧
    (handleUpload h s now today writeOk).errors = s.errors ∧
    (handleUpload h s now today writeOk).formData = s.formData := by
  unfold handleUpload
  by_cases hf : (falsy (trim s.formData.title) || falsy (trim s.formData.description)) = true
  · rw [if_pos hf]
    exact ⟨rfl, rfl, rfl, ⟨_, rfl⟩, rfl, rfl⟩
  · rw [if_neg hf]
    have hv : s.formData.videoFile = none := by
      rcases hbad with ht | hd | hv
      · exact absurd (by simp [falsy, ht]) hf
      · exact absurd (by simp [falsy, hd]) hf
      · exact hv
    rw [hv]
    exact ⟨rfl, rfl, rfl, ⟨_, rfl⟩, rfl, rfl⟩

/-- C4, at a concrete form: a title of blanks only. -/
theorem handleUpload_rejects_invalid_witness :
    (trim "   " = "" ∨ trim "about" = "" ∨ (some (File.mk "a.mp4" "video/mp4" [0]) = none)) ∧
    (handleUpload
      { stringify := fun _ => "[]", toLowerCase := fun x => x, readAsDataURL := fun _ => some "data:" }
      { initialState with formData :=
        { title := "   ", description := "about", category := "movie",
          thumbnail := Thumbnail.str "", duration := "",
          videoFile := some (File.mk "a.mp4" "video/mp4" [0]) } }
      1700000000000 "14. 11. 2023" true).videos = [] :=
  ⟨Or.inl (by decide),
   (handleUpload_rejects_invalid
      { stringify := fun _ => "[]", toLowerCase := fun x => x, readAsDataURL := fun _ => some "data:" }
      { initialState with formData :=
        { title := "   ", description := "about", category := "movie",
          thumbnail := Thumbnail.str "", duration := "",
          videoFile := some (File.mk "a.mp4" "video/mp4" [0]) } }
      1700000000000 "14. 11. 2023" true (Or.inl (by decide))).1⟩

/-- C5: for a draft whose title and description are non-empty after trimming
and whose video file is present, once the reader has encoded the video file
(and the thumbnail file, if one is in the form) and the write resolves,
`handleUpload` leaves, in memory and as the persisted value, the old collection
followed by one new record.  The new record has the title, description, category
and duration of the draft as they are in the form, as `videoData` the data URL
the reader gave for the video file of the draft, as `thumbnailData` the data URL
of the thumbnail file or the empty string, `likes`, `comments` and `views` 0 and
`userLiked` false; its id is the clock value.  The write is the one call of
`window.storage.set`. -/
theorem handleUpload_appends (h : Host) (s : AppState) (now : Int) (today : String)
    (videoFile : File) (videoBase64 : String)
    (ht : trim s.formData.title ≠ "") (hd : trim s.formData.description ≠ "")
    (hv : s.formData.videoFile = some videoFile)
    (hev : h.readAsDataURL videoFile = some videoBase64)
    (het : ∀ f, s.formData.thumbnail = Thumbnail.file f → (h.readAsDataURL f).isSome = true) :
    ∃ nv : Video,
      (handleUpload h s now today true).videos = s.videos ++ [nv] ∧
      (handleUpload h s now today true).db = some (h.stringify (s.videos ++ [nv])) ∧
      (handleUpload h s now today true).setCalls =
        s.setCalls ++ [h.stringify (s.videos ++ [nv])] ∧
      nv.title = s.formData.title ∧ nv.description = s.formData.description ∧
      nv.category = s.formData.category ∧ nv.duration = s.formData.duration ∧
      nv.videoData = videoBase64 ∧
      (∀ x, s.formData.thumbnail = Thumbnail.str x → nv.thumbnailData = "") ∧
      (∀ f, s.formData.thumbnail = Thumbnail.file f →
        h.readAsDataURL f = some nv.thumbnailData) ∧
      nv.videoFileName = videoFile.name ∧ nv.id = now ∧ nv.uploadDate = today ∧
      nv.likes = 0 ∧ nv.comments = 0 ∧ nv.views = 0 ∧ nv.userLiked = false := by
  have hf : ¬ (falsy (trim s.formData.title) || falsy (trim s.formData.description)) = true := by
    simp [falsy, ht, hd]
  obtain ⟨thumbnailBase64, hth⟩ :
      ∃ t, handleUpload_thumbnailBase64 h s.formData.thumbnail = some t := by
    cases hthumb : s.formData.thumbnail with
    | str x => exact ⟨"", rfl⟩
    | file f =>
      have hsome := het f hthumb
      rw [Option.isSome_iff_exists] at hsome
      obtain ⟨t, ht'⟩ := hsome
      exact ⟨t, ht'⟩
  have hvid : fileToBase64 h videoFile = some videoBase64 := hev
  refine ⟨handleUpload_newVideo s.formData videoFile videoBase64 thumbnailBase64 now today,
    ?_, ?_, ?_, rfl, rfl, rfl, rfl, rfl, ?_, ?_, rfl, rfl, rfl, rfl, rfl, rfl, rfl⟩
  · unfold handleUpload
    rw [if_neg hf, hv]
    simp only [hvid, hth]
    rfl
  · unfold handleUpload
    rw [if_neg hf, hv]
    simp only [hvid, hth]
    rfl
  · unfold handleUpload
    rw [if_neg hf, hv]
    simp only [hvid, hth]
    rfl
  · intro x hx
    rw [hx] at hth
    have : some "" = some thumbnailBase64 := hth
    exact (Option.some.inj this).symm
  · intro f hfile
    rw [hfile] at hth
    exact hth

/-- C5, at a concrete draft with a thumbnail file, uploaded to a collection of
one record; the reader of this host encodes the type and the bytes of a file. -/
theorem handleUpload_appends_witness :
    ∃ nv : Video,
      (handleUpload
        { stringify := fun vs => String.join (vs.map fun v => v.title ++ ";"),
          toLowerCase := fun x => x,
          readAsDataURL := fun f =>
            some ("data:" ++ f.type ++ ";base64," ++ String.join (f.bytes.map fun b =>
              if b < 128 then "A" else "B")) }
        { initialState with
        videos := [ { id := 7, title := "old", description := "o", category := "series",
                      videoData := "data:video/mp4;base64,AA", thumbnailData := "",
                      videoFileName := "o.mp4", likes := 1, comments := 0, views := 0,
                      uploadDate := "1. 1. 2024", userLiked := true, duration := "" } ],
        formData :=
          { title := " Warfare ", description := "film", category := "movie",
            thumbnail := Thumbnail.file (File.mk "w.png" "image/png" [137, 80]),
            duration := "95",
            videoFile := some (File.mk "w.mp4" "video/mp4" [0, 200, 1]) } }
        1700000000000 "14. 11. 2023" true).videos =
        [ { id := 7, title := "old", description := "o", category := "series",
            videoData := "data:video/mp4;base64,AA", thumbnailData := "",
            videoFileName := "o.mp4", likes := 1, comments := 0, views := 0,
            uploadDate := "1. 1. 2024", userLiked := true, duration := "" } ] ++ [nv] ∧
      (handleUpload
        { stringify := fun vs => String.join (vs.map fun v => v.title ++ ";"),
          toLowerCase := fun x => x,
          readAsDataURL := fun f =>
            some ("data:" ++ f.type ++ ";base64," ++ String.join (f.bytes.map fun b =>
              if b < 128 then "A" else "B")) }
        { initialState with
        videos := [ { id := 7, title := "old", description := "o", category := "series",
                      videoData := "data:video/mp4;base64,AA", thumbnailData := "",
                      videoFileName := "o.mp4", likes := 1, comments := 0, views := 0,
                      uploadDate := "1. 1. 2024", userLiked := true, duration := "" } ],
        formData :=
          { title := " Warfare ", description := "film", category := "movie",
            thumbnail := Thumbnail.file (File.mk "w.png" "image/png" [137, 80]),
            duration := "95",
            videoFile := some (File.mk "w.mp4" "video/mp4" [0, 200, 1]) } }
        1700000000000 "14. 11. 2023" true).db = some ("old;" ++ nv.title ++ ";") ∧
      nv.title = " Warfare " ∧ nv.description = "film" ∧ nv.category = "movie" ∧
      nv.duration = "95" ∧ nv.videoData = "data:video/mp4;base64,ABA" ∧
      some "data:image/png;base64,BA" = some nv.thumbnailData ∧
      nv.likes = 0 ∧ nv.comments = 0 ∧ nv.views = 0 ∧ nv.userLiked = false :=
  match handleUpload_appends
      { stringify := fun vs => String.join (vs.map fun v => v.title ++ ";"),
          toLowerCase := fun x => x,
          readAsDataURL := fun f =>
            some ("data:" ++ f.type ++ ";base64," ++ String.join (f.bytes.map fun b =>
              if b < 128 then "A" else "B")) }
      { initialState with
        videos := [ { id := 7, title := "old", description := "o", category := "series",
                      videoData := "data:video/mp4;base64,AA", thumbnailData := "",
                      videoFileName := "o.mp4", likes := 1, comments := 0, views := 0,
                      uploadDate := "1. 1. 2024", userLiked := true, duration := "" } ],
        formData :=
          { title := " Warfare ", description := "film", category := "movie",
            thumbnail := Thumbnail.file (File.mk "w.png" "image/png" [137, 80]),
            duration := "95",
            videoFile := some (File.mk "w.mp4" "video/mp4" [0, 200, 1]) } }
      1700000000000 "14. 11. 2023" (File.mk "w.mp4" "video/mp4" [0, 200, 1])
      "data:video/mp4;base64,ABA" (by decide) (by decide) rfl (by decide)
      (fun f hfile => by cases hfile; decide) with
  | ⟨nv, h1, h2, _, h4, h5, h6, h7, h8, _, h10, _, _, _, h14, h15, h16, h17⟩ =>
    ⟨nv, h1, h2, h4, h5, h6, h7, h8, h10 (File.mk "w.png" "image/png" [137, 80]) rfl,
      h14, h15, h16, h17⟩

/-- C9: `handleVideoUpload` puts the selected file into the form exactly when
its type is `video/mp4`, and `handleThumbnailUpload` exactly when its type is
`image/png` or `image/jpeg`; in every other case, no file selected included,
the handler shows one `alert` and the form is as before.  Neither handler
touches the collection, the persisted value or the storage, and an upload after
a turned-down selection stores what it would have stored without it. -/
theorem upload_file_type_validation (h : Host) (s : AppState) (file : Option File) :
    ((∃ f, file = some f ∧ f.type = "video/mp4") →
      (handleVideoUpload s file).formData = { s.formData with videoFile := file } ∧
      (handleVideoUpload s file).alerts = s.alerts) ∧
    (¬ (∃ f, file = some f ∧ f.type = "video/mp4") →
      (handleVideoUpload s file).formData = s.formData ∧
      (handleVideoUpload s file).alerts = s.alerts ++ ["Prosím vyber len MP4 video!"]) ∧
    ((∃ f, file = some f ∧ (f.type = "image/png" ∨ f.type = "image/jpeg")) →
      (∃ f, file = some f ∧
        (handleThumbnailUpload s file).formData =
          { s.formData with thumbnail := Thumbnail.file f }) ∧
      (handleThumbnailUpload s file).alerts = s.alerts) ∧
    (¬ (∃ f, file = some f ∧ (f.type = "image/png" ∨ f.type = "image/jpeg")) →
      (handleThumbnailUpload s file).formData = s.formData ∧
      (handleThumbnailUpload s file).alerts =
        s.alerts ++ ["Prosím vyber len PNG alebo JPG obrázok!"]) ∧
    ((handleVideoUpload s file).videos = s.videos ∧ (handleVideoUpload s file).db = s.db ∧
      (handleVideoUpload s file).setCalls = s.setCalls) ∧
    ((handleThumbnailUpload s file).videos = s.videos ∧
      (handleThumbnailUpload s file).db = s.db ∧
      (handleThumbnailUpload s file).setCalls = s.setCalls) ∧
    (¬ (∃ f, file = some f ∧ f.type = "video/mp4") →
      ∀ (now : Int) (today : String) (writeOk : Bool),
        (handleUpload h (handleVideoUpload s file) now today writeOk).videos =
          (handleUpload h s now today writeOk).videos ∧
        (handleUpload h (handleVideoUpload s file) now today writeOk).db =
          (handleUpload h s now today writeOk).db ∧
        (handleUpload h (handleVideoUpload s file) now today writeOk).setCalls =
          (handleUpload h s now today writeOk).setCalls) ∧
    (¬ (∃ f, file = some f ∧ (f.type = "image/png" ∨ f.type = "image/jpeg")) →
      ∀ (now : Int) (today : String) (writeOk : Bool),
        (handleUpload h (handleThumbnailUpload s file) now today writeOk).videos =
          (handleUpload h s now today writeOk).videos ∧
        (handleUpload h (handleThumbnailUpload s file) now today writeOk).db =
          (handleUpload h s now today writeOk).db ∧
        (handleUpload h (handleThumbnailUpload s file) now today writeOk).setCalls =
          (handleUpload h s now today writeOk).setCalls) := by
  have hvid : ¬ (∃ f, file = some f ∧ f.type = "video/mp4") →
      handleVideoUpload s file = alert s "Prosím vyber len MP4 video!" := by
    intro hno
    cases file with
    | none => rfl
    | some g =>
      have hne : ¬ g.type = "video/mp4" := fun ht => hno ⟨g, rfl, ht⟩
      simp [handleVideoUpload, hne]
  have hthumb : ¬ (∃ f, file = some f ∧ (f.type = "image/png" ∨ f.type = "image/jpeg")) →
      handleThumbnailUpload s file = alert s "Prosím vyber len PNG alebo JPG obrázok!" := by
    intro hno
    cases file with
    | none => rfl
    | some g =>
      have hne : ¬ (g.type = "image/png" ∨ g.type = "image/jpeg") :=
        fun ht => hno ⟨g, rfl, ht⟩
      rw [not_or] at hne
      simp [handleThumbnailUpload, hne.1, hne.2]
  refine ⟨?_, ?_, ?_, ?_, ?_, ?_, ?_, ?_⟩
  · rintro ⟨f, hf, ht⟩
    subst hf
    simp [handleVideoUpload, ht]
  · intro hno
    rw [hvid hno]
    exact ⟨rfl, rfl⟩
  · rintro ⟨f, hf, ht⟩
    subst hf
    refine ⟨⟨f, rfl, ?_⟩, ?_⟩
    · rcases ht with ht | ht <;> simp [handleThumbnailUpload, ht]
    · rcases ht with ht | ht <;> simp [handleThumbnailUpload, ht]
  · intro hno
    rw [hthumb hno]
    exact ⟨rfl, rfl⟩
  · cases file with
    | none => exact ⟨rfl, rfl, rfl⟩
    | some g =>
      by_cases ht : g.type = "video/mp4" <;> simp [handleVideoUpload, ht, alert]
  · cases file with
    | none => exact ⟨rfl, rfl, rfl⟩
    | some g =>
      by_cases h1 : g.type = "image/png" <;> by_cases h2 : g.type = "image/jpeg" <;>
        simp [handleThumbnailUpload, h1, h2, alert]
  · intro hno now today writeOk
    rw [hvid hno]
    exact handleUpload_after_alert h s _ now today writeOk
  · intro hno now today writeOk
    rw [hthumb hno]
    exact handleUpload_after_alert h s _ now today writeOk

/-- C9, at the two files of the specification: `video/quicktime` offered as
video and `image/gif` offered as thumbnail are turned down. -/
theorem upload_file_type_validation_witness :
    (handleVideoUpload initialState (some (File.mk "clip.mov" "video/quicktime" [1]))).formData =
        initialState.formData ∧
    (handleVideoUpload initialState (some (File.mk "clip.mov" "video/quicktime" [1]))).alerts =
        initialState.alerts ++ ["Prosím vyber len MP4 video!"] :=
  (upload_file_type_validation
    { stringify := fun _ => "[]", toLowerCase := fun x => x, readAsDataURL := fun _ => none }
    initialState (some (File.mk "clip.mov" "video/quicktime" [1]))).2.1 (by decide)

/-- C10, as the claim has it, fails: with the write rejected, the collection in
memory after `toggleLike(1)` is not the collection the handler tried to save. -/
theorem saveVideos_failure_not_installed :
    (toggleLike
        { stringify := fun _ => "[]", toLowerCase := fun x => x, readAsDataURL := fun _ => none }
        { initialState with videos :=
          [ { id := 1, title := "a", description := "x", category := "movie", videoData := "d",
              thumbnailData := "", videoFileName := "a.mp4", likes := 0, comments := 0,
              views := 0, uploadDate := "1. 1. 2024", userLiked := false, duration := "" } ] }
        1 false).videos
      ≠ toggleLike_updatedVideos
          [ { id := 1, title := "a", description := "x", category := "movie", videoData := "d",
              thumbnailData := "", videoFileName := "a.mp4", likes := 0, comments := 0,
              views := 0, uploadDate := "1. 1. 2024", userLiked := false, duration := "" } ] 1 := by
  decide

/-- C10, amended: when the storage write fails, `saveVideos` only logs the
error and the collection in memory stays the collection from before the call,
the attempted update being dropped; the persisted value is not changed either.
So it is for `deleteVideo`, `toggleLike` and `handleUpload`. -/
theorem saveVideos_failure_keeps_state (h : Host) (s : AppState) (updatedVideos : List Video)
    (id : Int) (now : Int) (today : String) :
    ((saveVideos h s updatedVideos false).videos = s.videos ∧
      (saveVideos h s updatedVideos false).db = s.db ∧
      (saveVideos h s updatedVideos false).errors = s.errors ++ ["Chyba pri ukladaní:"] ∧
      (saveVideos h s updatedVideos false).alerts = s.alerts) ∧
    ((deleteVideo h s id false).videos = s.videos ∧ (deleteVideo h s id false).db = s.db ∧
      (deleteVideo h s id false).errors = s.errors ++ ["Chyba pri ukladaní:"]) ∧
    ((toggleLike h s id false).videos = s.videos ∧ (toggleLike h s id false).db = s.db ∧
      (toggleLike h s id false).errors = s.errors ++ ["Chyba pri ukladaní:"]) ∧
    ((handleUpload h s now today false).videos = s.videos ∧
      (handleUpload h s now today false).db = s.db) := by
  refine ⟨⟨rfl, rfl, rfl, rfl⟩, ⟨rfl, rfl, rfl⟩, ⟨rfl, rfl, rfl⟩, ?_⟩
  unfold handleUpload
  split
  · exact ⟨rfl, rfl⟩
  · split
    · exact ⟨rfl, rfl⟩
    · split
      · exact ⟨rfl, rfl⟩
      · split
        · exact ⟨rfl, rfl⟩
        · exact ⟨rfl, rfl⟩


/-- C7, as the claim has it, fails: a record with `likes = 0` that is marked
liked has no negative counter, and `toggleLike` takes it to `likes = -1`. -/
theorem toggleLike_likes_can_go_negative :
    (∀ v ∈ [ ({ id := 1, title := "a", description := "x", category := "movie",
                videoData := "d", thumbnailData := "", videoFileName := "a.mp4", likes := 0,
                comments := 0, views := 0, uploadDate := "1. 1. 2024", userLiked := true,
                duration := "" } : Video) ], 0 ≤ v.likes) ∧
    ¬ (∀ v ∈ toggleLike_updatedVideos
          [ { id := 1, title := "a", description := "x", category := "movie",
              videoData := "d", thumbnailData := "", videoFileName := "a.mp4", likes := 0,
              comments := 0, views := 0, uploadDate := "1. 1. 2024", userLiked := true,
              duration := "" } ] 1, 0 ≤ v.likes) := by
  decide

theorem toggle_record_likesOk (v : Video) (id : Int) (hv : LikesOk v) :
    LikesOk (if v.id == id then
        { v with
          userLiked := !v.userLiked,
          likes := if v.userLiked then numSub v.likes 1 else numAdd v.likes 1 }
      else v) := by
  by_cases hid : v.id = id
  · cases hl : v.userLiked
    · simp only [hid, beq_self_eq_true, if_true, hl, LikesOk]
      have h1 : 1 ≤ numAdd v.likes 1 := roundToDouble_pos (v.likes + 1) (by have := hv.1; omega)
      constructor
      · simp; omega
      · intro _; simpa using h1
    · simp only [hid, beq_self_eq_true, if_true, hl, LikesOk]
      have h0 : 0 ≤ numSub v.likes 1 :=
        roundToDouble_nonneg (v.likes - 1) (by have := hv.2 hl; omega)
      constructor
      · simpa using h0
      · intro hc; simp at hc
  · simpa [hid] using hv

theorem toggleLike_updatedVideos_likesOk (videos : List Video) (id : Int)
    (hinv : ∀ v ∈ videos, LikesOk v) : ∀ v ∈ toggleLike_updatedVideos videos id, LikesOk v := by
  intro w hw
  unfold toggleLike_updatedVideos at hw
  rcases List.mem_map.mp hw with ⟨v, hv, rfl⟩
  exact toggle_record_likesOk v id (hinv v hv)

theorem handleUpload_videos_cases (h : Host) (s : AppState) (now : Int) (today : String)
    (writeOk : Bool) :
    (handleUpload h s now today writeOk).videos = s.videos ∨
    ∃ videoFile videoBase64 thumbnailBase64,
      (handleUpload h s now today writeOk).videos =
        s.videos ++
          [handleUpload_newVideo s.formData videoFile videoBase64 thumbnailBase64 now today] := by
  unfold handleUpload
  split
  · exact Or.inl rfl
  · split
    · exact Or.inl rfl
    · split
      · exact Or.inl rfl
      · split
        · exact Or.inl rfl
        · cases writeOk
          · exact Or.inl rfl
          · exact Or.inr ⟨_, _, _, rfl⟩

/-- C7, amended: in a collection where every record has `likes ≥ 0` and
`likes ≥ 1` whenever it is marked liked, `toggleLike`, `deleteVideo` and
`handleUpload` give, whatever the write does, a collection with the same
property, so no record with negative `likes`.  The empty collection has the
property. -/
theorem likes_stay_nonnegative (h : Host) (s : AppState) (id : Int) (now : Int)
    (today : String) (writeOk : Bool) (hinv : ∀ v ∈ s.videos, LikesOk v) :
    (∀ v ∈ (toggleLike h s id writeOk).videos, LikesOk v ∧ 0 ≤ v.likes) ∧
    (∀ v ∈ (deleteVideo h s id writeOk).videos, LikesOk v ∧ 0 ≤ v.likes) ∧
    (∀ v ∈ (handleUpload h s now today writeOk).videos, LikesOk v ∧ 0 ≤ v.likes) ∧
    (∀ v ∈ initialState.videos, LikesOk v) := by
  refine ⟨?_, ?_, ?_, ?_⟩
  · intro v hv
    have hok : LikesOk v := by
      rcases saveVideos_videos_mem h s (toggleLike_updatedVideos s.videos id) writeOk with e | e
      · rw [toggleLike, e] at hv
        exact toggleLike_updatedVideos_likesOk s.videos id hinv v hv
      · rw [toggleLike, e] at hv
        exact hinv v hv
    exact ⟨hok, hok.1⟩
  · intro v hv
    have hok : LikesOk v := by
      rcases saveVideos_videos_mem h s (deleteVideo_updatedVideos s.videos id) writeOk with e | e
      · rw [deleteVideo, e] at hv
        unfold deleteVideo_updatedVideos at hv
        exact hinv v (List.mem_filter.mp hv).1
      · rw [deleteVideo, e] at hv
        exact hinv v hv
    exact ⟨hok, hok.1⟩
  · intro v hv
    have hok : LikesOk v := by
      rcases handleUpload_videos_cases h s now today writeOk with e | ⟨vf, vb, tb, e⟩
      · rw [e] at hv
        exact hinv v hv
      · rw [e] at hv
        rcases List.mem_append.mp hv with hm | hm
        · exact hinv v hm
        · rw [List.mem_singleton] at hm
          subst hm
          exact ⟨le_refl _, fun hc => by simp [handleUpload_newVideo] at hc⟩
    exact ⟨hok, hok.1⟩
  · intro v hv
    cases hv

/-- C7 amended, at a concrete collection: one liked record with one like; after
`toggleLike(1)` it is the record with no like, not liked. -/
theorem likes_stay_nonnegative_witness :
    LikesOk
      { id := 1, title := "a", description := "x", category := "movie", videoData := "d",
        thumbnailData := "", videoFileName := "a.mp4", likes := 0, comments := 0,
        views := 0, uploadDate := "1. 1. 2024", userLiked := false, duration := "" } ∧
    (0 : Int) ≤
      (Video.mk 1 "a" "x" "movie" "d" "" "a.mp4" 0 0 0 "1. 1. 2024" false "").likes :=
  (likes_stay_nonnegative
    { stringify := fun _ => "[]", toLowerCase := fun x => x, readAsDataURL := fun _ => none }
    { initialState with videos :=
      [ { id := 1, title := "a", description := "x", category := "movie", videoData := "d",
          thumbnailData := "", videoFileName := "a.mp4", likes := 1, comments := 0,
          views := 0, uploadDate := "1. 1. 2024", userLiked := true, duration := "" } ] }
    1 1700000000000 "14. 11. 2023" true (by decide)).1
    { id := 1, title := "a", description := "x", category := "movie", videoData := "d",
      thumbnailData := "", videoFileName := "a.mp4", likes := 0, comments := 0,
      views := 0, uploadDate := "1. 1. 2024", userLiked := false, duration := "" }
    (by decide)

/-- C8, as the claim has it, fails: when `Date.now()` gives the id of a record
already in the collection, `handleUpload` leaves two records with that id. -/
theorem handleUpload_can_duplicate_id :
    UniqueIds
      [ { id := 1700000000000, title := "a", description := "x", category := "movie",
          videoData := "d", thumbnailData := "", videoFileName := "a.mp4", likes := 0,
          comments := 0, views := 0, uploadDate := "14. 11. 2023", userLiked := false,
          duration := "" } ] ∧
    ¬ UniqueIds
      (handleUpload
        { stringify := fun _ => "[]", toLowerCase := fun x => x,
          readAsDataURL := fun _ => some "data:video/mp4;base64,AA==" }
        { initialState with
          videos :=
            [ { id := 1700000000000, title := "a", description := "x", category := "movie",
                videoData := "d", thumbnailData := "", videoFileName := "a.mp4", likes := 0,
                comments := 0, views := 0, uploadDate := "14. 11. 2023", userLiked := false,
                duration := "" } ],
          formData :=
            { title := "b", description := "y", category := "gaming",
              thumbnail := Thumbnail.str "", duration := "",
              videoFile := some (File.mk "b.mp4" "video/mp4" [0]) } }
        1700000000000 "14. 11. 2023" true).videos := by
  decide

/-- C8, amended: on a collection with pairwise distinct ids, `deleteVideo` and
`toggleLike` always give a collection with pairwise distinct ids, and so does
`handleUpload` whenever the current time it takes the new id from is not the id
of a record already in the collection. -/
theorem ids_stay_unique (h : Host) (s : AppState) (id : Int) (now : Int) (today : String)
    (writeOk : Bool) (huniq : UniqueIds s.videos) :
    UniqueIds (deleteVideo h s id writeOk).videos ∧
    UniqueIds (toggleLike h s id writeOk).videos ∧
    ((∀ v ∈ s.videos, v.id ≠ now) → UniqueIds (handleUpload h s now today writeOk).videos) := by
  refine ⟨?_, ?_, ?_⟩
  · rcases saveVideos_videos_mem h s (deleteVideo_updatedVideos s.videos id) writeOk with e | e
    · rw [deleteVideo, e]
      unfold UniqueIds ids deleteVideo_updatedVideos
      exact List.Nodup.sublist ((List.filter_sublist s.videos).map _) huniq
    · rw [deleteVideo, e]
      exact huniq
  · rcases saveVideos_videos_mem h s (toggleLike_updatedVideos s.videos id) writeOk with e | e
    · rw [toggleLike, e]
      unfold UniqueIds ids
      rw [toggleLike_updatedVideos_ids]
      exact huniq
    · rw [toggleLike, e]
      exact huniq
  · intro hfresh
    rcases handleUpload_videos_cases h s now today writeOk with e | ⟨vf, vb, tb, e⟩
    · rw [e]
      exact huniq
    · rw [e]
      unfold UniqueIds ids
      rw [List.map_append, List.nodup_append]
      refine ⟨huniq, by simp, ?_⟩
      intro x hx hy
      simp only [List.map_cons, List.map_nil, List.mem_singleton, handleUpload_newVideo] at hy
      rcases List.mem_map.mp hx with ⟨v, hv, rfl⟩
      exact hfresh v hv hy

/-- C8 amended, at a concrete collection: a new record with a later time. -/
theorem ids_stay_unique_witness :
    UniqueIds
      (handleUpload
        { stringify := fun _ => "[]", toLowerCase := fun x => x,
          readAsDataURL := fun _ => some "data:video/mp4;base64,AA==" }
        { initialState with
          videos :=
            [ { id := 1700000000000, title := "a", description := "x", category := "movie",
                videoData := "d", thumbnailData := "", videoFileName := "a.mp4", likes := 0,
                comments := 0, views := 0, uploadDate := "14. 11. 2023", userLiked := false,
                duration := "" } ],
          formData :=
            { title := "b", description := "y", category := "gaming",
              thumbnail := Thumbnail.str "", duration := "",
              videoFile := some (File.mk "b.mp4" "video/mp4" [0]) } }
        1700000000001 "14. 11. 2023" true).videos :=
  (ids_stay_unique
    { stringify := fun _ => "[]", toLowerCase := fun x => x,
      readAsDataURL := fun _ => some "data:video/mp4;base64,AA==" }
    { initialState with
      videos :=
        [ { id := 1700000000000, title := "a", description := "x", category := "movie",
            videoData := "d", thumbnailData := "", videoFileName := "a.mp4", likes := 0,
            comments := 0, views := 0, uploadDate := "14. 11. 2023", userLiked := false,
            duration := "" } ],
      formData :=
        { title := "b", description := "y", category := "gaming",
          thumbnail := Thumbnail.str "", duration := "",
          videoFile := some (File.mk "b.mp4" "video/mp4" [0]) } }
    1 1700000000001 "14. 11. 2023" true (by decide)).2.2 (by decide)


theorem includesChars_iff_infix (s t : List Char) : includesChars s t = true ↔ t <:+: s := by
  induction s with
  | nil =>
    cases t with
    | nil => simp [includesChars]
    | cons a as => simp [includesChars]
  | cons c cs ih =>
    rw [includesChars, Bool.or_eq_true, List.isPrefixOf_iff_prefix, ih, List.infix_cons_iff]

theorem includes_iff_infix (s t : String) : includes s t = true ↔ t.data <:+: s.data :=
  includesChars_iff_infix s.data t.data

theorem filter_test_iff (h : Host) (searchTerm category : String) (v : Video) :
    ((includes (h.toLowerCase v.title) (h.toLowerCase searchTerm) ||
        includes (h.toLowerCase v.description) (h.toLowerCase searchTerm)) &&
      (category == "all" || v.category == category)) = true ↔
    MatchesFilter h searchTerm category v := by
  unfold MatchesFilter
  rw [Bool.and_eq_true, Bool.or_eq_true, Bool.or_eq_true, includes_iff_infix,
    includes_iff_infix, beq_iff_eq, beq_iff_eq]

theorem filteredVideos_eq_filter (h : Host) (s : AppState) :
    filteredVideos h s =
      s.videos.filter (fun v => decide (MatchesFilter h s.searchTerm s.selectedCategory v)) := by
  unfold filteredVideos
  apply List.filter_congr
  intro v _
  rw [Bool.eq_iff_iff, decide_eq_true_iff]
  exact filter_test_iff h s.searchTerm s.selectedCategory v

/-- C2: the filtered view is the sub-list, in collection order, of the records
whose lower-cased title or description contains the lower-cased search term and
whose category is the selected one, every category passing when `all` is
selected.  With an empty search term and `all` it is the whole collection, and
for records titled `Warfare` (movie), `Gameplay` (gaming) and `The War`
(series), search `War` and category `movie`, it is the first record alone. -/
theorem filteredVideos_spec (h : Host) (s : AppState) :
    filteredVideos h s =
      s.videos.filter (fun v => decide (MatchesFilter h s.searchTerm s.selectedCategory v)) ∧
    (filteredVideos h s).Sublist s.videos ∧
    (∀ v, v ∈ filteredVideos h s ↔
      v ∈ s.videos ∧ MatchesFilter h s.searchTerm s.selectedCategory v) ∧
    (LowersAscii h → s.searchTerm = "" → s.selectedCategory = "all" →
      filteredVideos h s = s.videos) ∧
    (LowersAscii h → ∀ w g t : Video,
      w.title = "Warfare" → w.category = "movie" →
      g.title = "Gameplay" → g.category = "gaming" →
      t.title = "The War" → t.category = "series" →
      s.videos = [w, g, t] → s.searchTerm = "War" → s.selectedCategory = "movie" →
      filteredVideos h s = [w]) := by
  refine ⟨filteredVideos_eq_filter h s, ?_, ?_, ?_, ?_⟩
  · unfold filteredVideos
    exact List.filter_sublist _
  · intro v
    rw [filteredVideos_eq_filter, List.mem_filter, decide_eq_true_iff]
  · intro hl hs hc
    rw [filteredVideos_eq_filter, List.filter_eq_self]
    intro v _
    rw [decide_eq_true_iff]
    refine ⟨Or.inl ?_, Or.inl hc⟩
    have he : h.toLowerCase s.searchTerm = "" := by
      rw [hs, hl "" (by simp)]
      rfl
    rw [he]
    exact List.nil_infix
  · intro hl w g t hwt hwc hgt hgc htt htc hv hs hc
    have hwar : h.toLowerCase "War" = "war" := by
      rw [hl "War" (by decide)]
      decide
    have hwarfare : h.toLowerCase "Warfare" = "warfare" := by
      rw [hl "Warfare" (by decide)]
      decide
    have hw : MatchesFilter h "War" "movie" w := by
      refine ⟨Or.inl ?_, Or.inr hwc⟩
      rw [hwt, hwar, hwarfare]
      decide
    have hg : ¬ MatchesFilter h "War" "movie" g := by
      rintro ⟨_, hcat⟩
      rw [hgc] at hcat
      revert hcat
      decide
    have ht : ¬ MatchesFilter h "War" "movie" t := by
      rintro ⟨_, hcat⟩
      rw [htc] at hcat
      revert hcat
      decide
    rw [filteredVideos_eq_filter, hv, hs, hc]
    simp [List.filter, hw, hg, ht]

/-- C2, at the example of the specification, the host lower-casing by ASCII. -/
theorem filteredVideos_spec_witness :
    filteredVideos
      { stringify := fun _ => "[]", toLowerCase := fun x => String.mk (x.data.map Char.toLower),
        readAsDataURL := fun _ => none }
      { initialState with
        videos :=
          [ { id := 1, title := "Warfare", description := "", category := "movie",
              videoData := "", thumbnailData := "", videoFileName := "", likes := 0,
              comments := 0, views := 0, uploadDate := "", userLiked := false, duration := "" },
            { id := 2, title := "Gameplay", description := "", category := "gaming",
              videoData := "", thumbnailData := "", videoFileName := "", likes := 0,
              comments := 0, views := 0, uploadDate := "", userLiked := false, duration := "" },
            { id := 3, title := "The War", description := "", category := "series",
              videoData := "", thumbnailData := "", videoFileName := "", likes := 0,
              comments := 0, views := 0, uploadDate := "", userLiked := false, duration := "" } ],
        searchTerm := "War", selectedCategory := "movie" } =
      [ { id := 1, title := "Warfare", description := "", category := "movie",
          videoData := "", thumbnailData := "", videoFileName := "", likes := 0,
          comments := 0, views := 0, uploadDate := "", userLiked := false, duration := "" } ] :=
  (filteredVideos_spec
    { stringify := fun _ => "[]", toLowerCase := fun x => String.mk (x.data.map Char.toLower),
      readAsDataURL := fun _ => none }
    { initialState with
      videos :=
        [ { id := 1, title := "Warfare", description := "", category := "movie",
            videoData := "", thumbnailData := "", videoFileName := "", likes := 0,
            comments := 0, views := 0, uploadDate := "", userLiked := false, duration := "" },
          { id := 2, title := "Gameplay", description := "", category := "gaming",
            videoData := "", thumbnailData := "", videoFileName := "", likes := 0,
            comments := 0, views := 0, uploadDate := "", userLiked := false, duration := "" },
          { id := 3, title := "The War", description := "", category := "series",
            videoData := "", thumbnailData := "", videoFileName := "", likes := 0,
            comments := 0, views := 0, uploadDate := "", userLiked := false, duration := "" } ],
      searchTerm := "War", selectedCategory := "movie" }).2.2.2.2
    (fun _ _ => rfl) _ _ _ rfl rfl rfl rfl rfl rfl rfl rfl rfl

end VideoPlatform
